import Mathlib

/-!
Verification of the victron_ess MQTT-to-DBus bridge.

Shallow embedding of the two source variants:
- `src/pvinverter_new_refactored_untested.py` (classes `MQTTDataStore`,
  `MQTTClient`, `DbusPVInverter`), and
- `src/pvinverter_new.py` (module globals, `on_message`, `DbusDummyService2`).

Python floats are modelled as exact rationals (ℚ).  Every numeric
computation that the claims touch (the `/10000 - 73311` energy offset,
the backoff `*1.5` growth, rounding of decimally-written constants) is
exact in binary floating point at the inputs considered, so the rational
model agrees with the Python doubles there.  `round(x, 1)` / `round(x)`
are modelled as exact round-half-to-even (Python's rounding mode).
-/

/-! ### Python `float()` payload parsing

Models CPython `float(str)` on finite decimal literals: optional
surrounding whitespace, optional sign, integer/fraction digits, optional
exponent.  (`inf`/`nan` and `_` digit separators are not modelled; no
claim depends on them.)  Parse failure (`ValueError`) is `none`. -/

def digitsToNat (cs : List Char) : Nat :=
  cs.foldl (fun n c => 10 * n + (c.toNat - '0'.toNat)) 0

def pow10 (e : Int) : ℚ :=
  if 0 ≤ e then (10 : ℚ) ^ e.toNat else ((10 : ℚ) ^ (-e).toNat)⁻¹

def parseExpDigits (cs : List Char) : Option Nat :=
  if cs.isEmpty then none
  else if cs.all Char.isDigit then some (digitsToNat cs) else none

def parseExpPart (cs : List Char) : Option Int :=
  match cs with
  | '+' :: ds => (parseExpDigits ds).map (fun n => (n : Int))
  | '-' :: ds => (parseExpDigits ds).map (fun n => -(n : Int))
  | ds => (parseExpDigits ds).map (fun n => (n : Int))

/-- `List.span` written with structural recursion so that its equations
unfold cleanly. -/
def pySpan (p : Char → Bool) : List Char → List Char × List Char
  | [] => ([], [])
  | c :: cs =>
    if p c then
      let r := pySpan p cs
      (c :: r.1, r.2)
    else ([], c :: cs)

def parseUnsignedChars (cs : List Char) : Option ℚ :=
  let (ip, rest1) := pySpan Char.isDigit cs
  match rest1 with
  | [] => if ip.isEmpty then none else some (digitsToNat ip : ℚ)
  | '.' :: rest2 =>
    let (fp, rest3) := pySpan Char.isDigit rest2
    if ip.isEmpty && fp.isEmpty then none
    else
      let mant : ℚ := (digitsToNat ip : ℚ) + (digitsToNat fp : ℚ) / (10 : ℚ) ^ fp.length
      match rest3 with
      | [] => some mant
      | c :: rest4 =>
        if c = 'e' ∨ c = 'E' then (parseExpPart rest4).map (fun e => mant * pow10 e)
        else none
  | c :: rest2 =>
    if c = 'e' ∨ c = 'E' then
      if ip.isEmpty then none
      else (parseExpPart rest2).map (fun e => (digitsToNat ip : ℚ) * pow10 e)
    else none

def isPySpace (c : Char) : Bool :=
  c = ' ' ∨ c = '\t' ∨ c = '\n' ∨ c = '\r'

/-- Strip leading and trailing whitespace (Python `str.strip()`, and the
whitespace tolerance of `float(str)`). -/
def trimChars (cs : List Char) : List Char :=
  ((cs.dropWhile isPySpace).reverse.dropWhile isPySpace).reverse

def parseFloatChars (cs : List Char) : Option ℚ :=
  match cs with
  | '+' :: rest => parseUnsignedChars rest
  | '-' :: rest => (parseUnsignedChars rest).map Neg.neg
  | rest => parseUnsignedChars rest

/-- Python `float(s)`: strips whitespace, then parses a signed decimal
literal; `none` models a raised `ValueError`. -/
def pyFloat (cs : List Char) : Option ℚ :=
  parseFloatChars (trimChars cs)

/-- Python `str.split(",")`: splits on every comma, keeping empty parts;
the empty string yields `[[]]`. -/
def splitOnComma : List Char → List (List Char)
  | [] => [[]]
  | c :: rest =>
    let r := splitOnComma rest
    if c = ',' then [] :: r
    else
      match r with
      | [] => [[c]]
      | g :: gs => (c :: g) :: gs

/-! ### `MQTTDataStore` (refactored variant) -/

/-- The fields of `MQTTDataStore.__init__`
(`src/pvinverter_new_refactored_untested.py:68-76`). -/
structure MQTTDataStore where
  pow_ges : ℚ
  e_today : ℚ
  e_total : ℚ
  pow_l1 : ℚ
  pow_l2 : ℚ
  pow_l3 : ℚ
  connected : Bool
deriving DecidableEq, Repr

/-- `CONFIG['initial_energy_offset']` (= 73311 kWh). -/
def initialEnergyOffset : ℚ := 73311

/-- `MQTTDataStore()` construction: all zero except
`e_total = initial_energy_offset * 10000`, `connected = False`. -/
def initStore : MQTTDataStore :=
  { pow_ges := 0, e_today := 0, e_total := initialEnergyOffset * 10000
    pow_l1 := 0, pow_l2 := 0, pow_l3 := 0, connected := false }

/-- `MQTTDataStore.set_connected`. -/
def setConnected (st : MQTTDataStore) (b : Bool) : MQTTDataStore :=
  { st with connected := b }

/-- `MQTTDataStore.update_phase_powers(l1, l2, l3)` as called from
`_on_message` with the three *string* parts: `float()` is applied to each
argument in turn inside the lock, so a `ValueError` (second component
`true`) on a later part leaves the earlier assignments in place. -/
def updatePhasePowers (st : MQTTDataStore) (l1 l2 l3 : List Char) :
    MQTTDataStore × Bool :=
  match pyFloat l1 with
  | none => (st, true)
  | some v1 =>
    let st1 := { st with pow_l1 := v1 }
    match pyFloat l2 with
    | none => (st1, true)
    | some v2 =>
      let st2 := { st1 with pow_l2 := v2 }
      match pyFloat l3 with
      | none => (st2, true)
      | some v3 => ({ st2 with pow_l3 := v3 }, false)

/-- Body of `MQTTClient._on_message` (the code inside its outer `try`):
strip the payload, dispatch on the topic.  Second component `true` means
an exception reached the outer `except Exception` handler.  The
`pvpwrl123` branch has its own inner `try/except ValueError`, so a parse
failure there is already caught (but the partial mutation persists). -/
def onMessageBody (st : MQTTDataStore) (topic payload : String) :
    MQTTDataStore × Bool :=
  let msg := trimChars payload.data
  if topic = "ehzmeter/pvpower" then
    match pyFloat msg with
    | some v => ({ st with pow_ges := v }, false)
    | none => (st, true)
  else if topic = "ehzmeter/pvtoday" then
    match pyFloat msg with
    | some v => ({ st with e_today := v }, false)
    | none => (st, true)
  else if topic = "ehzmeter/pvtotal" then
    match pyFloat msg with
    | some v => ({ st with e_total := v }, false)
    | none => (st, true)
  else if topic = "ehzmeter/pvpwrl123" then
    match splitOnComma msg with
    | [s1, s2, s3] => ((updatePhasePowers st s1 s2 s3).1, false)
    | _ => (st, false)
  else (st, false)

/-- `MQTTClient._on_message` with its outer `except Exception`: any
exception from the body is caught and logged, so the handler always
returns normally (second component is always `false`). -/
def onMessageFull (st : MQTTDataStore) (topic payload : String) :
    MQTTDataStore × Bool :=
  ((onMessageBody st topic payload).1, false)

/-- The store state after `MQTTClient._on_message` handles one message. -/
def onMessage (st : MQTTDataStore) (topic payload : String) : MQTTDataStore :=
  (onMessageFull st topic payload).1

/-! ### Module globals and `on_message` (original variant) -/

/-- The module-level globals of `src/pvinverter_new.py:33-48`. -/
structure OrigGlobals where
  verbunden : ℚ
  durchlauf : ℚ
  volt_ges : ℚ
  volt_p1 : ℚ
  volt_p2 : ℚ
  volt_p3 : ℚ
  amp_p1 : ℚ
  amp_p2 : ℚ
  amp_p3 : ℚ
  pow_ges : ℚ
  e_today : ℚ
  e_total : ℚ
  e_totkwh : ℚ
  pow_l1 : ℚ
  pow_l2 : ℚ
  pow_l3 : ℚ
deriving DecidableEq, Repr

/-- The initial values assigned to the module globals: all zero except
`e_total = 73311*10000`. -/
def origInit : OrigGlobals :=
  { verbunden := 0, durchlauf := 0, volt_ges := 0, volt_p1 := 0, volt_p2 := 0
    volt_p3 := 0, amp_p1 := 0, amp_p2 := 0, amp_p3 := 0, pow_ges := 0
    e_today := 0, e_total := 73311 * 10000, e_totkwh := 0, pow_l1 := 0
    pow_l2 := 0, pow_l3 := 0 }

/-- `on_message` of the original variant: no `try/except` anywhere, no
`strip()`.  Second component `true` means the handler raised
(`ValueError` from `float()` or from unpacking `msg.split(",")` into
exactly three names).  Globals assigned before the raise stay mutated. -/
def onMessageO (g : OrigGlobals) (topic payload : String) :
    OrigGlobals × Bool :=
  let msg := payload.data
  if topic = "ehzmeter/pvpower" then
    match pyFloat msg with
    | some v => ({ g with pow_ges := v }, false)
    | none => (g, true)
  else if topic = "ehzmeter/pvtoday" then
    match pyFloat msg with
    | some v => ({ g with e_today := v }, false)
    | none => (g, true)
  else if topic = "ehzmeter/pvtotal" then
    match pyFloat msg with
    | some v => ({ g with e_total := v }, false)
    | none => (g, true)
  else if topic = "ehzmeter/pvpwrl123" then
    match splitOnComma msg with
    | [s1, s2, s3] =>
      match pyFloat s1 with
      | none => (g, true)
      | some v1 =>
        let g1 := { g with pow_l1 := v1 }
        match pyFloat s2 with
        | none => (g1, true)
        | some v2 =>
          let g2 := { g1 with pow_l2 := v2 }
          match pyFloat s3 with
          | none => (g2, true)
          | some v3 => ({ g2 with pow_l3 := v3 }, false)
    | _ => (g, true)
  else (g, false)

/-! ### Python rounding and `%`, modelled exactly over ℚ -/

/-- Python 3 `round(x)`: round half to even. -/
def roundHalfEven (x : ℚ) : ℤ :=
  let f := ⌊x⌋
  if x - f < 1 / 2 then f
  else if 1 / 2 < x - f then f + 1
  else if f % 2 = 0 then f else f + 1

/-- Python `round(x, 1)`: round to one decimal, half to even. -/
def pyRound1 (x : ℚ) : ℚ := (roundHalfEven (x * 10) : ℚ) / 10

/-- Python `round(x)` as used for `/Ac/Power` in the original variant. -/
def pyRoundInt (x : ℚ) : ℤ := roundHalfEven x

/-- Python `x % n` on numbers: `x - n * floor(x / n)`. -/
def qmod (x n : ℚ) : ℚ := x - n * ⌊x / n⌋

/-! ### The publish cycles (`DbusPVInverter._update` and
`DbusDummyService2._update`) -/

/-- `netEnergyKWh`: `e_total / 10000 - initial offset`
(refactored line 277; original line 125 with the literal `73311`). -/
def netEnergyKWh (raw : ℚ) : ℚ := raw / 10000 - initialEnergyOffset

inductive Phase where
  | L1
  | L2
  | L3
deriving DecidableEq, Repr

/-- The DBus path identifiers touched by the two services, as an
enumerated key set (`pathOf` gives the source spelling). -/
inductive DPath where
  | acPower
  | acEnergyForward
  | acVoltage (p : Phase)
  | acCurrent (p : Phase)
  | acPhasePower (p : Phase)
  | acPhaseEnergy (p : Phase)
  | updateIndex
  | connected
  | deviceInstance
  | productId
  | position
deriving DecidableEq, Repr

def phaseName : Phase → String
  | .L1 => "L1"
  | .L2 => "L2"
  | .L3 => "L3"

def pathOf : DPath → String
  | .acPower => "/Ac/Power"
  | .acEnergyForward => "/Ac/Energy/Forward"
  | .acVoltage p => "/Ac/" ++ phaseName p ++ "/Voltage"
  | .acCurrent p => "/Ac/" ++ phaseName p ++ "/Current"
  | .acPhasePower p => "/Ac/" ++ phaseName p ++ "/Power"
  | .acPhaseEnergy p => "/Ac/" ++ phaseName p ++ "/Energy/Forward"
  | .updateIndex => "/UpdateIndex"
  | .connected => "/Connected"
  | .deviceInstance => "/DeviceInstance"
  | .productId => "/ProductId"
  | .position => "/Position"

/-- First-match association lookup on a write list. -/
def wlookup : List (DPath × ℚ) → DPath → Option ℚ
  | [], _ => none
  | (k, v) :: rest, p => if k = p then some v else wlookup rest p

/-- `index = (old + 1) % 256` (refactored line 304). -/
def refacNextIndex (old : ℚ) : ℚ := qmod (old + 1) 256

/-- `index = old + 1; if index > 255: index = 0` (original lines 145-148). -/
def origNextIndex (old : ℚ) : ℚ := if old + 1 > 255 then 0 else old + 1

/-- The ordered `self._dbusservice[...] = ...` assignments of one
refactored `DbusPVInverter._update` tick (lines 277-305), given the
snapshot `d` and the `/UpdateIndex` value read from the service.  The
phase loop runs in dict insertion order L1, L2, L3; the energy share
constants 0.576/0.212/0.212 are the `energy_dist` table. -/
def refacWrites (d : MQTTDataStore) (oldIdx : ℚ) : List (DPath × ℚ) :=
  let e_totkwh := netEnergyKWh d.e_total
  [(.acPower, pyRound1 d.pow_ges),
   (.acEnergyForward, pyRound1 e_totkwh),
   (.acCurrent .L1, pyRound1 (d.pow_l1 / 230)),
   (.acPhasePower .L1, pyRound1 d.pow_l1),
   (.acPhaseEnergy .L1, pyRound1 (e_totkwh * (576 / 1000))),
   (.acCurrent .L2, pyRound1 (d.pow_l2 / 230)),
   (.acPhasePower .L2, pyRound1 d.pow_l2),
   (.acPhaseEnergy .L2, pyRound1 (e_totkwh * (212 / 1000))),
   (.acCurrent .L3, pyRound1 (d.pow_l3 / 230)),
   (.acPhasePower .L3, pyRound1 d.pow_l3),
   (.acPhaseEnergy .L3, pyRound1 (e_totkwh * (212 / 1000))),
   (.updateIndex, refacNextIndex oldIdx)]

/-- The ordered assignments of one original `DbusDummyService2._update`
tick (lines 124-148), given the globals `g` and the `/UpdateIndex` value
read from the service. -/
def origWrites (g : OrigGlobals) (oldIdx : ℚ) : List (DPath × ℚ) :=
  let e_totkwh := g.e_total / 10000 - 73311
  [(.acEnergyForward, pyRound1 e_totkwh),
   (.acVoltage .L1, 230),
   (.acVoltage .L2, 230),
   (.acVoltage .L3, 230),
   (.acPhaseEnergy .L1, pyRound1 (e_totkwh * (576 / 1000))),
   (.acPhaseEnergy .L2, pyRound1 (e_totkwh * (212 / 1000))),
   (.acPhaseEnergy .L3, pyRound1 (e_totkwh * (212 / 1000))),
   (.acCurrent .L1, pyRound1 (g.pow_l1 / 230)),
   (.acCurrent .L2, pyRound1 (g.pow_l2 / 230)),
   (.acCurrent .L3, pyRound1 (g.pow_l3 / 230)),
   (.acPhasePower .L1, pyRound1 g.pow_l1),
   (.acPhasePower .L2, pyRound1 g.pow_l2),
   (.acPhasePower .L3, pyRound1 g.pow_l3),
   (.acPower, (pyRoundInt g.pow_ges : ℚ)),
   (.updateIndex, origNextIndex oldIdx)]

/-- One point update of the sink (a `self._dbusservice[path] = value`
assignment that succeeds). -/
def writeTo (sink : DPath → ℚ) (p : DPath) (v : ℚ) : DPath → ℚ :=
  fun q => if q = p then v else sink q

/-- Perform the assignments in order against a sink in which writing to a
path `p` with `fail p = true` raises: the first failing write aborts the
rest (the exception propagates).  Returns the resulting sink and `true`
iff the whole list completed. -/
def runWrites (fail : DPath → Bool) (sink : DPath → ℚ) :
    List (DPath × ℚ) → (DPath → ℚ) × Bool
  | [] => (sink, true)
  | (p, v) :: rest =>
    if fail p then (sink, false)
    else runWrites fail (writeTo sink p v) rest

/-- Refactored `DbusPVInverter._update`: the whole body runs inside
`try/except Exception`, and both the `try` and the `except` arm
`return True`.  A failing write aborts the remaining writes of the tick,
but the callback still reports "continue scheduling". -/
def dbusUpdate (fail : DPath → Bool) (sink : DPath → ℚ) (d : MQTTDataStore) :
    (DPath → ℚ) × Bool :=
  let r := runWrites fail sink (refacWrites d (sink .updateIndex))
  (r.1, true)

/-- Original `DbusDummyService2._update`: no exception handling, so a
failing write makes the callback itself raise (`none`); only a fully
completed tick returns the continue value `True`. -/
def origUpdate (fail : DPath → Bool) (sink : DPath → ℚ) (g : OrigGlobals) :
    Option ((DPath → ℚ) × Bool) :=
  let r := runWrites fail sink (origWrites g (sink .updateIndex))
  if r.2 then some (r.1, true) else none

/-- The numeric DBus paths as initialised by
`DbusPVInverter._setup_paths` (refactored lines 243-269): `/Connected` is
set to the constant `1`, per-phase voltages to `230`, measurement paths
and `/UpdateIndex` to `0`. -/
def setupSink : DPath → ℚ := fun p =>
  match p with
  | .connected => 1
  | .acVoltage _ => 230
  | .deviceInstance => 41
  | .productId => 65535
  | _ => 0

/-- The operations that touch the refactored system's shared state after
construction: a publish tick, a `set_connected` call, or an incoming
MQTT message. -/
inductive SysOp where
  | tick (fail : DPath → Bool)
  | setConn (b : Bool)
  | msg (topic payload : String)

/-- Effect of one operation on (store, DBus sink). -/
def applyOp (s : MQTTDataStore × (DPath → ℚ)) (op : SysOp) :
    MQTTDataStore × (DPath → ℚ) :=
  match op with
  | .tick fail => (s.1, (dbusUpdate fail s.2 s.1).1)
  | .setConn b => (setConnected s.1 b, s.2)
  | .msg t p => (onMessage s.1 t p, s.2)

/-! ### `MQTTClient` reconnect backoff -/

/-- `self.reconnect_delay`, the one scalar of the backoff state. -/
structure BackoffState where
  delay : ℚ
deriving DecidableEq, Repr

/-- `CONFIG['reconnect_delay']` = 5, the floor. -/
def initialBackoff : BackoffState := ⟨5⟩

/-- `MQTTClient._schedule_reconnect` (lines 211-223): arm a timer for
`min(reconnect_delay, 300)`, then set
`reconnect_delay = min(reconnect_delay * 1.5, 300)`.  Returns the armed
delay and the next state. -/
def scheduleRetry (b : BackoffState) : ℚ × BackoffState :=
  let d := min b.delay 300
  (d, ⟨min (b.delay * (3 / 2)) 300⟩)

/-- `_on_connect` with `rc == 0` (lines 160-167): reset the delay to the
configured floor. -/
def resetBackoff : BackoffState := ⟨5⟩

/-- A sink in which writing `/Ac/Power` (the tick's first write) raises. -/
def failAcPower : DPath → Bool := fun p =>
  match p with
  | .acPower => true
  | _ => false

/-- A store whose phase-1 power is 230 W, so a tick should publish
`/Ac/L1/Current = 1.0`. -/
def cexStore : MQTTDataStore := { initStore with pow_l1 := 230 }

/-! ### Lock-level interleaving model of `MQTTDataStore`
(`update_phase_powers` vs `get_all`)

`update_phase_powers(l1, l2, l3)` with numeric arguments (its annotated
`float` parameter types) performs three field assignments inside
`with self._lock`; `get_all` copies the fields inside the same lock.  The
writer's critical section is modelled at the granularity of single field
writes guarded by lock ownership; the reader's critical section only
reads, so it is one step that requires the lock to be free. -/

abbrev PhaseTriple := ℚ × ℚ × ℚ

inductive LockOwner where
  | free
  | writer
deriving DecidableEq

/-- Global state of the two-thread system: the three phase-power fields,
the lock, the writer's remaining `update_phase_powers` calls and its
position inside the current critical section, the reader's remaining
`get_all` calls, and the snapshots the reader has observed. -/
structure LockConfig where
  l1 : ℚ
  l2 : ℚ
  l3 : ℚ
  owner : LockOwner
  jobs : List PhaseTriple
  wpc : Nat
  pending : Nat
  snaps : List PhaseTriple

/-- One interleaving step.  The writer acquires the lock, performs its
three assignments one at a time, and releases; the reader takes a
snapshot only while the lock is free (its own acquire/copy/release
collapses into one step because it does not write). -/
inductive StoreStep : LockConfig → LockConfig → Prop where
  | acquire (a b c : ℚ) (t : PhaseTriple) (rest : List PhaseTriple)
      (w pend : Nat) (sn : List PhaseTriple) :
      StoreStep ⟨a, b, c, .free, t :: rest, w, pend, sn⟩
        ⟨a, b, c, .writer, t :: rest, 0, pend, sn⟩
  | write1 (a b c : ℚ) (t : PhaseTriple) (rest : List PhaseTriple)
      (pend : Nat) (sn : List PhaseTriple) :
      StoreStep ⟨a, b, c, .writer, t :: rest, 0, pend, sn⟩
        ⟨t.1, b, c, .writer, t :: rest, 1, pend, sn⟩
  | write2 (a b c : ℚ) (t : PhaseTriple) (rest : List PhaseTriple)
      (pend : Nat) (sn : List PhaseTriple) :
      StoreStep ⟨a, b, c, .writer, t :: rest, 1, pend, sn⟩
        ⟨a, t.2.1, c, .writer, t :: rest, 2, pend, sn⟩
  | write3 (a b c : ℚ) (t : PhaseTriple) (rest : List PhaseTriple)
      (pend : Nat) (sn : List PhaseTriple) :
      StoreStep ⟨a, b, c, .writer, t :: rest, 2, pend, sn⟩
        ⟨a, b, t.2.2, .writer, t :: rest, 3, pend, sn⟩
  | release (a b c : ℚ) (t : PhaseTriple) (rest : List PhaseTriple)
      (pend : Nat) (sn : List PhaseTriple) :
      StoreStep ⟨a, b, c, .writer, t :: rest, 3, pend, sn⟩
        ⟨a, b, c, .free, rest, 0, pend, sn⟩
  | snapshot (a b c : ℚ) (jobs : List PhaseTriple) (w pend : Nat)
      (sn : List PhaseTriple) :
      StoreStep ⟨a, b, c, .free, jobs, w, pend + 1, sn⟩
        ⟨a, b, c, .free, jobs, w, pend, (a, b, c) :: sn⟩

/-- A triple that was written together as one unit: either the initial
store contents or the argument triple of one `update_phase_powers` call. -/
def wholeTriple (ini : PhaseTriple) (allJobs : List PhaseTriple)
    (t : PhaseTriple) : Prop :=
  t = ini ∨ t ∈ allJobs

/-- Inductive invariant: observed snapshots and the store contents while
the lock is not held by the writer are whole triples, and mid-critical
section the written prefix matches the current call's arguments. -/
def LockInv (ini : PhaseTriple) (allJobs : List PhaseTriple)
    (cf : LockConfig) : Prop :=
  (∀ s ∈ cf.snaps, wholeTriple ini allJobs s) ∧
  (∀ j ∈ cf.jobs, j ∈ allJobs) ∧
  (cf.owner = .writer → ∃ t rest, cf.jobs = t :: rest ∧
    (cf.wpc = 1 → cf.l1 = t.1) ∧
    (cf.wpc = 2 → cf.l1 = t.1 ∧ cf.l2 = t.2.1) ∧
    (cf.wpc = 3 → cf.l1 = t.1 ∧ cf.l2 = t.2.1 ∧ cf.l3 = t.2.2)) ∧
  (cf.owner = .free → wholeTriple ini allJobs (cf.l1, cf.l2, cf.l3))

theorem lockInv_preserved (ini : PhaseTriple) (allJobs : List PhaseTriple)
    {cf cf' : LockConfig} (hstep : StoreStep cf cf')
    (hinv : LockInv ini allJobs cf) : LockInv ini allJobs cf' := by
  obtain ⟨hsn, hjobs, hwr, hfree⟩ := hinv
  cases hstep with
  | acquire a b c t rest w pend sn =>
    refine ⟨hsn, hjobs, fun _ => ⟨t, rest, rfl, ?_, ?_, ?_⟩, ?_⟩
    · intro h; simp at h
    · intro h; simp at h
    · intro h; simp at h
    · intro h; simp at h
  | write1 a b c t rest pend sn =>
    refine ⟨hsn, hjobs, fun _ => ⟨t, rest, rfl, fun _ => rfl, ?_, ?_⟩, ?_⟩
    · intro h; simp at h
    · intro h; simp at h
    · intro h; simp at h
  | write2 a b c t rest pend sn =>
    obtain ⟨t', rest', het, h1, h2, h3⟩ := hwr rfl
    injection het with het1 het2
    subst het1
    refine ⟨hsn, hjobs, fun _ => ⟨t, rest, rfl, ?_, ?_, ?_⟩, ?_⟩
    · intro h; simp at h
    · intro _; exact ⟨h1 rfl, rfl⟩
    · intro h; simp at h
    · intro h; simp at h
  | write3 a b c t rest pend sn =>
    obtain ⟨t', rest', het, h1, h2, h3⟩ := hwr rfl
    injection het with het1 het2
    subst het1
    refine ⟨hsn, hjobs, fun _ => ⟨t, rest, rfl, ?_, ?_, ?_⟩, ?_⟩
    · intro h; simp at h
    · intro h; simp at h
    · intro _; exact ⟨(h2 rfl).1, (h2 rfl).2, rfl⟩
    · intro h; simp at h
  | release a b c t rest pend sn =>
    obtain ⟨t', rest', het, h1, h2, h3⟩ := hwr rfl
    injection het with het1 het2
    subst het1
    subst het2
    refine ⟨hsn, fun j hj => hjobs j (List.mem_cons_of_mem t hj), ?_, fun _ => ?_⟩
    · intro h; simp at h
    · obtain ⟨e1, e2, e3⟩ := h3 rfl
      refine Or.inr ?_
      have ht : (a, b, c) = t := by
        obtain ⟨tf, t2, t3⟩ := t
        simp only [Prod.mk.injEq]
        exact ⟨e1, e2, e3⟩
      rw [ht]
      exact hjobs t (List.mem_cons_self t rest)
  | snapshot a b c jobs w pend sn =>
    refine ⟨fun s hs => ?_, hjobs, ?_, fun _ => hfree rfl⟩
    · rcases List.mem_cons.mp hs with h | h
      · rw [h]; exact hfree rfl
      · exact hsn s h
    · intro h; simp at h

/-! ### Helper lemmas about the publish machinery -/

theorem runWrites_complete_iff (fail : DPath → Bool) :
    ∀ (sink : DPath → ℚ) (l : List (DPath × ℚ)),
      (runWrites fail sink l).2 = true ↔
        ∀ p ∈ l.map Prod.fst, fail p = false := by
  intro sink l
  induction l generalizing sink with
  | nil => simp [runWrites]
  | cons hd tl ih =>
    obtain ⟨p, v⟩ := hd
    by_cases h : fail p
    · simp [runWrites, h]
    · have hfp : fail p = false := by revert h; cases fail p <;> simp
      simp only [runWrites, hfp, Bool.false_eq_true, if_false]
      rw [ih (writeTo sink p v)]
      simp only [List.map_cons, List.mem_cons]
      constructor
      · intro hc q hq
        rcases hq with rfl | hq
        · exact hfp
        · exact hc q hq
      · intro hc q hq
        exact hc q (Or.inr hq)

theorem runWrites_all_pass (fail : DPath → Bool) :
    ∀ (sink : DPath → ℚ) (l : List (DPath × ℚ)),
      (∀ p ∈ l.map Prod.fst, fail p = false) →
      (runWrites fail sink l).1 =
        l.foldl (fun s pv => writeTo s pv.1 pv.2) sink := by
  intro sink l
  induction l generalizing sink with
  | nil => intro _; rfl
  | cons hd tl ih =>
    obtain ⟨p, v⟩ := hd
    intro h
    have hp : fail p = false := h p (by simp)
    simp only [runWrites, hp, Bool.false_eq_true, if_false, List.foldl_cons]
    exact ih (writeTo sink p v) fun q hq => h q (by simp [hq])

theorem runWrites_preserves (fail : DPath → Bool) :
    ∀ (sink : DPath → ℚ) (l : List (DPath × ℚ)) (p : DPath),
      p ∉ l.map Prod.fst → (runWrites fail sink l).1 p = sink p := by
  intro sink l
  induction l generalizing sink with
  | nil => intro p _; rfl
  | cons hd tl ih =>
    obtain ⟨q, v⟩ := hd
    intro p hp
    simp only [List.map_cons, List.mem_cons, not_or] at hp
    by_cases h : fail q
    · simp [runWrites, h]
    · have hq : fail q = false := by revert h; cases fail q <;> simp
      simp only [runWrites, hq, Bool.false_eq_true, if_false]
      rw [ih (writeTo sink q v) p (by simpa using hp.2)]
      simp [writeTo, hp.1]

/-- The path key lists of the two ticks are fixed. -/
theorem refacWrites_paths (d : MQTTDataStore) (oldIdx : ℚ) :
    (refacWrites d oldIdx).map Prod.fst =
      [.acPower, .acEnergyForward,
       .acCurrent .L1, .acPhasePower .L1, .acPhaseEnergy .L1,
       .acCurrent .L2, .acPhasePower .L2, .acPhaseEnergy .L2,
       .acCurrent .L3, .acPhasePower .L3, .acPhaseEnergy .L3,
       .updateIndex] := rfl

theorem origWrites_paths (g : OrigGlobals) (oldIdx : ℚ) :
    (origWrites g oldIdx).map Prod.fst =
      [.acEnergyForward, .acVoltage .L1, .acVoltage .L2, .acVoltage .L3,
       .acPhaseEnergy .L1, .acPhaseEnergy .L2, .acPhaseEnergy .L3,
       .acCurrent .L1, .acCurrent .L2, .acCurrent .L3,
       .acPhasePower .L1, .acPhasePower .L2, .acPhasePower .L3,
       .acPower, .updateIndex] := rfl

/-- For an in-range index value `n < 256`, the refactored
`(n + 1) % 256` computed by Python numeric `%` equals Nat `(n+1) % 256`. -/
theorem refacNextIndex_nat (n : ℕ) (hn : n < 256) :
    refacNextIndex (n : ℚ) = (((n + 1) % 256 : ℕ) : ℚ) := by
  unfold refacNextIndex qmod
  by_cases h : n = 255
  · subst h
    norm_num
  · have hlt : n + 1 < 256 := by omega
    have hfl : ⌊((n : ℚ) + 1) / 256⌋ = 0 := by
      rw [Int.floor_eq_zero_iff]
      constructor
      · positivity
      · rw [div_lt_one (by norm_num)]
        exact_mod_cast hlt
    rw [hfl]
    rw [Nat.mod_eq_of_lt hlt]
    push_cast
    ring
/-- For an in-range index value `n < 256`, the original
`if n + 1 > 255 then 0 else n + 1` equals Nat `(n+1) % 256`. -/
theorem origNextIndex_nat (n : ℕ) (hn : n < 256) :
    origNextIndex (n : ℚ) = (((n + 1) % 256 : ℕ) : ℚ) := by
  unfold origNextIndex
  by_cases h : n = 255
  · subst h
    norm_num
  · have hlt : n + 1 < 256 := by omega
    have hle : ¬((n : ℚ) + 1 > 255) := by
      rw [not_lt]
      exact_mod_cast Nat.le_of_lt_succ hlt
    rw [if_neg hle]
    rw [Nat.mod_eq_of_lt hlt]
    push_cast
    ring

/-! ### Claim theorems -/

/-- C2 counterexample: the publish-cycle computation
`netEnergyKWh = energyTotalRaw / 10000 - initialOffsetKWh` yields 1.0,
not 0.1, at `energyTotalRaw = 733120000` (733120000/10000 = 73312 and
73312 - 73311 = 1). -/
theorem c2_counterexample : netEnergyKWh 733120000 ≠ (1 / 10 : ℚ) := by
  norm_num [netEnergyKWh, initialEnergyOffset]

/-- C2 (amended): with `initialOffsetKWh = 73311`, `netEnergyKWh` is
exactly 0 at `energyTotalRaw = 733110000` and exactly 1 at
`energyTotalRaw = 733120000`. -/
theorem c2_net_energy_values :
    netEnergyKWh 733110000 = 0 ∧ netEnergyKWh 733120000 = 1 := by
  norm_num [netEnergyKWh, initialEnergyOffset]

/-- C5: with floor 5, growth factor 1.5 and ceiling 300, three
consecutive `scheduleRetry` invocations arm delays 5, 7.5, 11.25 (each
within the 300 cap), and after `reset()` the next armed delay is 5. -/
theorem c5_backoff_sequence :
    (scheduleRetry initialBackoff).1 = 5 ∧
    (scheduleRetry (scheduleRetry initialBackoff).2).1 = 15 / 2 ∧
    (scheduleRetry (scheduleRetry (scheduleRetry initialBackoff).2).2).1 = 45 / 4 ∧
    (scheduleRetry initialBackoff).1 ≤ 300 ∧
    (scheduleRetry (scheduleRetry initialBackoff).2).1 ≤ 300 ∧
    (scheduleRetry (scheduleRetry (scheduleRetry initialBackoff).2).2).1 ≤ 300 ∧
    (scheduleRetry resetBackoff).1 = 5 := by
  norm_num [scheduleRetry, initialBackoff, resetBackoff, min_def]

/-- C6: both variants' revision-counter steps advance by exactly 1
modulo 256 from every value in [0,255] (so the counter never skips and
never goes backward), and iterating 256 successful ticks from 0 returns
to 0. -/
theorem c6_revision_counter :
    (∀ v : ℕ, v < 256 →
        refacNextIndex (v : ℚ) = (((v + 1) % 256 : ℕ) : ℚ) ∧
        origNextIndex (v : ℚ) = (((v + 1) % 256 : ℕ) : ℚ)) ∧
    refacNextIndex^[256] (0 : ℚ) = 0 ∧
    origNextIndex^[256] (0 : ℚ) = 0 := by
  have key : ∀ f : ℚ → ℚ,
      (∀ m : ℕ, m < 256 → f (m : ℚ) = (((m + 1) % 256 : ℕ) : ℚ)) →
      ∀ k : ℕ, f^[k] (0 : ℚ) = ((k % 256 : ℕ) : ℚ) := by
    intro f hf k
    induction k with
    | zero => norm_num
    | succ k ih =>
      rw [Function.iterate_succ_apply', ih,
        hf (k % 256) (Nat.mod_lt _ (by norm_num))]
      congr 1
      omega
  have ecast : ((256 % 256 : ℕ) : ℚ) = 0 := by norm_num
  refine ⟨fun v hv => ⟨refacNextIndex_nat v hv, origNextIndex_nat v hv⟩, ?_, ?_⟩
  · have h2 := key refacNextIndex (fun m hm => refacNextIndex_nat m hm) 256
    rw [ecast] at h2
    exact h2
  · have h2 := key origNextIndex (fun m hm => origNextIndex_nat m hm) 256
    rw [ecast] at h2
    exact h2

/-- C6 witness: at the wrap point 255 the successor is (255+1) % 256 = 0
in both variants. -/
theorem c6_witness :
    refacNextIndex ((255 : ℕ) : ℚ) = (((255 + 1) % 256 : ℕ) : ℚ) ∧
    origNextIndex ((255 : ℕ) : ℚ) = (((255 + 1) % 256 : ℕ) : ℚ) :=
  c6_revision_counter.1 255 (by norm_num)

/-- C8: at store construction every measurement field is zero and
`connected` is false, except `e_total`, seeded with
`initialOffsetKWh * 10000 = 733110000`; the derived net energy (and the
`/Ac/Energy/Forward` value published by the first tick) is therefore 0.
The original variant's module globals satisfy the same invariant. -/
theorem c8_initial_state :
    initStore.pow_ges = 0 ∧ initStore.e_today = 0 ∧ initStore.pow_l1 = 0 ∧
    initStore.pow_l2 = 0 ∧ initStore.pow_l3 = 0 ∧
    initStore.connected = false ∧
    initStore.e_total = 73311 * 10000 ∧
    netEnergyKWh initStore.e_total = 0 ∧
    wlookup (refacWrites initStore 0) DPath.acEnergyForward = some 0 ∧
    origInit.pow_ges = 0 ∧ origInit.e_today = 0 ∧ origInit.pow_l1 = 0 ∧
    origInit.pow_l2 = 0 ∧ origInit.pow_l3 = 0 ∧ origInit.verbunden = 0 ∧
    origInit.e_total = 73311 * 10000 := by
  norm_num [initStore, origInit, initialEnergyOffset, netEnergyKWh,
    refacWrites, wlookup, pyRound1, roundHalfEven]

/-- C1 counterexample: the payload `"1,x,2"` has exactly 3 parts with a
non-numeric second part, yet handling it changes the store: `pow_l1` is
assigned `1.0` before `float("x")` raises, and the caught `ValueError`
does not roll the assignment back.  So "all three phase-power fields are
unchanged" fails. -/
theorem c1_counterexample :
    ¬ onMessage initStore "ehzmeter/pvpwrl123" "1,x,2" = initStore := by
  intro h
  have h1 : (onMessage initStore "ehzmeter/pvpwrl123" "1,x,2").pow_l1 = 1 := by
    simp [onMessage, onMessageFull, onMessageBody, updatePhasePowers, splitOnComma,
      pyFloat, parseFloatChars, trimChars, parseUnsignedChars, pySpan, isPySpace,
      digitsToNat]
  rw [h] at h1
  norm_num [initStore] at h1

/-- C1 (amended): on the `pvpwrl123` topic, a payload whose 3
comma-separated parts all parse as floats `a, b, c` sets the snapshot's
phase powers to `[a, b, c]` (and touches nothing else); a payload with a
part count other than 3 leaves the store unchanged; but a 3-part payload
with a non-numeric part performs a *prefix* update: the parts before the
first failing one are applied and the rest keep their prior values. -/
theorem c1_pvpwrl123_update (st : MQTTDataStore) (payload : String) :
    (∀ s1 s2 s3 a b c,
        splitOnComma (trimChars payload.data) = [s1, s2, s3] →
        pyFloat s1 = some a → pyFloat s2 = some b → pyFloat s3 = some c →
        onMessage st "ehzmeter/pvpwrl123" payload =
          { st with pow_l1 := a, pow_l2 := b, pow_l3 := c }) ∧
    ((splitOnComma (trimChars payload.data)).length ≠ 3 →
        onMessage st "ehzmeter/pvpwrl123" payload = st) ∧
    (∀ s1 s2 s3,
        splitOnComma (trimChars payload.data) = [s1, s2, s3] →
        pyFloat s1 = none →
        onMessage st "ehzmeter/pvpwrl123" payload = st) ∧
    (∀ s1 s2 s3 a,
        splitOnComma (trimChars payload.data) = [s1, s2, s3] →
        pyFloat s1 = some a → pyFloat s2 = none →
        onMessage st "ehzmeter/pvpwrl123" payload = { st with pow_l1 := a }) ∧
    (∀ s1 s2 s3 a b,
        splitOnComma (trimChars payload.data) = [s1, s2, s3] →
        pyFloat s1 = some a → pyFloat s2 = some b → pyFloat s3 = none →
        onMessage st "ehzmeter/pvpwrl123" payload =
          { st with pow_l1 := a, pow_l2 := b }) := by
  refine ⟨?_, ?_, ?_, ?_, ?_⟩
  · intro s1 s2 s3 a b c hsplit hp1 hp2 hp3
    simp [onMessage, onMessageFull, onMessageBody, hsplit, updatePhasePowers,
      hp1, hp2, hp3]
  · intro hlen
    rcases hl : splitOnComma (trimChars payload.data) with
      _ | ⟨x1, _ | ⟨x2, _ | ⟨x3, _ | ⟨x4, xr⟩⟩⟩⟩
    · simp [onMessage, onMessageFull, onMessageBody, hl]
    · simp [onMessage, onMessageFull, onMessageBody, hl]
    · simp [onMessage, onMessageFull, onMessageBody, hl]
    · rw [hl] at hlen
      simp at hlen
    · simp [onMessage, onMessageFull, onMessageBody, hl]
  · intro s1 s2 s3 hsplit hp1
    simp [onMessage, onMessageFull, onMessageBody, hsplit, updatePhasePowers, hp1]
  · intro s1 s2 s3 a hsplit hp1 hp2
    simp [onMessage, onMessageFull, onMessageBody, hsplit, updatePhasePowers,
      hp1, hp2]
  · intro s1 s2 s3 a b hsplit hp1 hp2 hp3
    simp [onMessage, onMessageFull, onMessageBody, hsplit, updatePhasePowers,
      hp1, hp2, hp3]

/-- C1 witness: concrete instantiation of the amended theorem at the
happy-path payload `"1,2,3"`. -/
theorem c1_witness :
    onMessage initStore "ehzmeter/pvpwrl123" "1,2,3" =
      { initStore with pow_l1 := 1, pow_l2 := 2, pow_l3 := 3 } :=
  (c1_pvpwrl123_update initStore "1,2,3").1 "1".data "2".data "3".data 1 2 3
    (by simp [splitOnComma, trimChars, isPySpace])
    (by simp [pyFloat, parseFloatChars, trimChars, parseUnsignedChars, pySpan,
      isPySpace, digitsToNat])
    (by simp [pyFloat, parseFloatChars, trimChars, parseUnsignedChars, pySpan,
      isPySpace, digitsToNat])
    (by simp [pyFloat, parseFloatChars, trimChars, parseUnsignedChars, pySpan,
      isPySpace, digitsToNat])

/-- C4 counterexample: the original variant's `on_message` raises a
`ValueError` out of the handler on the non-numeric payload `"abc"` to
`ehzmeter/pvpower` (there is no `try/except` in `on_message`), so "the
onMessage ingest handler never raises" fails for that variant. -/
theorem c4_counterexample :
    (onMessageO origInit "ehzmeter/pvpower" "abc").2 = true := by
  simp [onMessageO, pyFloat, parseFloatChars, trimChars, parseUnsignedChars,
    pySpan, isPySpace]

/-- C4 (amended): the refactored `_on_message` never lets an exception
escape (its outer `except Exception` catches everything), and for the
three scalar topics a parse failure leaves the store unchanged, so the
message is dropped and later messages are unaffected.  The original
variant's `on_message`, by contrast, raises on a bad payload
(see the counterexample). -/
theorem c4_refactored_never_raises (st : MQTTDataStore)
    (topic payload : String) :
    (onMessageFull st topic payload).2 = false ∧
    (topic = "ehzmeter/pvpower" → pyFloat (trimChars payload.data) = none →
      onMessage st topic payload = st) ∧
    (topic = "ehzmeter/pvtoday" → pyFloat (trimChars payload.data) = none →
      onMessage st topic payload = st) ∧
    (topic = "ehzmeter/pvtotal" → pyFloat (trimChars payload.data) = none →
      onMessage st topic payload = st) := by
  refine ⟨rfl, ?_, ?_, ?_⟩
  · rintro rfl hnone
    simp [onMessage, onMessageFull, onMessageBody, hnone]
  · rintro rfl hnone
    simp [onMessage, onMessageFull, onMessageBody, hnone]
  · rintro rfl hnone
    simp [onMessage, onMessageFull, onMessageBody, hnone]

/-- C4 witness: the refactored handler returns normally and drops the
message on the unparsable payload `"abc"` to `pvpower`. -/
theorem c4_witness :
    onMessage initStore "ehzmeter/pvpower" "abc" = initStore :=
  (c4_refactored_never_raises initStore "ehzmeter/pvpower" "abc").2.1 rfl
    (by simp [pyFloat, parseFloatChars, trimChars, parseUnsignedChars, pySpan,
      isPySpace])

/-- C3 counterexample: when the write to `/Ac/Power` fails, the
refactored tick does *not* continue with the remaining paths — the
exception jumps to the cycle-boundary `except`, so `/Ac/L1/Current`
keeps its setup value 0, although the same tick without the failure
writes 1.0 there. -/
theorem c3_counterexample :
    (dbusUpdate failAcPower setupSink cexStore).1 (DPath.acCurrent .L1) = 0 ∧
    (dbusUpdate (fun _ => false) setupSink cexStore).1 (DPath.acCurrent .L1)
      = 1 := by
  constructor
  · simp [dbusUpdate, refacWrites, runWrites, failAcPower, setupSink]
  · simp [dbusUpdate, refacWrites, runWrites, writeTo, setupSink, cexStore,
      initStore, initialEnergyOffset, netEnergyKWh, pyRound1, roundHalfEven,
      refacNextIndex, qmod]

/-- C3 (amended): the refactored tick always returns the
continue-scheduling value `True` (both the `try` and the
`except Exception` arm return `True`), and when no write fails every
path is written; but a failing write aborts the remaining writes of that
tick (see the counterexample) instead of continuing path by path.  The
original variant's tick has no handler at all: it completes iff no write
fails, and a failing write propagates out of the callback. -/
theorem c3_tick_returns_continue (fail : DPath → Bool) (sink : DPath → ℚ)
    (d : MQTTDataStore) :
    (dbusUpdate fail sink d).2 = true ∧
    ((∀ p ∈ (refacWrites d (sink .updateIndex)).map Prod.fst, fail p = false) →
      (dbusUpdate fail sink d).1 =
        (refacWrites d (sink .updateIndex)).foldl
          (fun s pv => writeTo s pv.1 pv.2) sink) ∧
    (∀ g : OrigGlobals,
      (origUpdate fail sink g = none ↔
        ¬ ∀ p ∈ (origWrites g (sink .updateIndex)).map Prod.fst,
            fail p = false)) := by
  refine ⟨rfl, ?_, ?_⟩
  · intro hall
    unfold dbusUpdate
    exact runWrites_all_pass fail sink _ hall
  · intro g
    unfold origUpdate
    constructor
    · intro hnone hall
      rw [← runWrites_complete_iff fail sink] at hall
      simp [hall] at hnone
    · intro hnot
      have hsnd :
          (runWrites fail sink (origWrites g (sink .updateIndex))).2 = false := by
        cases hv : (runWrites fail sink (origWrites g (sink .updateIndex))).2
        · rfl
        · exact absurd ((runWrites_complete_iff fail sink _).mp hv) hnot
      simp [hsnd]

/-- C3 witness: with the failing `/Ac/Power` sink, the refactored tick
still reports continue, while the original tick raises. -/
theorem c3_witness :
    (dbusUpdate failAcPower setupSink cexStore).2 = true ∧
    origUpdate failAcPower setupSink origInit = none := by
  constructor
  · exact (c3_tick_returns_continue failAcPower setupSink cexStore).1
  · refine ((c3_tick_returns_continue failAcPower setupSink
      cexStore).2.2 origInit).mpr ?_
    intro hall
    have hmem : DPath.acPower ∈
        (origWrites origInit (setupSink .updateIndex)).map Prod.fst := by
      rw [origWrites_paths]
      decide
    simpa [failAcPower] using hall DPath.acPower hmem

/-- C7: starting from matching measurement state (and any in-range
update index), the two variants' publish cycles write equal values to
`/Ac/Energy/Forward` and to every per-phase current, power and
energy-forward path — indeed to every path both of them write except
`/Ac/Power` — and on `/Ac/Power` the original writes
`round(pow_ges)` (nearest integer, ties to even) while the refactored
writes `round(pow_ges, 1)` (one decimal). -/
theorem c7_variant_comparison (d : MQTTDataStore) (g : OrigGlobals) (n : ℕ)
    (_hpow : g.pow_ges = d.pow_ges) (h1 : g.pow_l1 = d.pow_l1)
    (h2 : g.pow_l2 = d.pow_l2) (h3 : g.pow_l3 = d.pow_l3)
    (he : g.e_total = d.e_total) (hn : n < 256) :
    (∀ p : DPath, p ≠ DPath.acPower →
      ∀ v w, wlookup (origWrites g (n : ℚ)) p = some v →
        wlookup (refacWrites d (n : ℚ)) p = some w → v = w) ∧
    wlookup (origWrites g (n : ℚ)) DPath.acPower =
      some ((pyRoundInt g.pow_ges : ℤ) : ℚ) ∧
    wlookup (refacWrites d (n : ℚ)) DPath.acPower =
      some (pyRound1 d.pow_ges) := by
  refine ⟨?_, by simp [origWrites, wlookup], by simp [refacWrites, wlookup]⟩
  intro p hp v w hv hw
  cases p with
  | acPower => exact absurd rfl hp
  | acEnergyForward =>
    simp [origWrites, refacWrites, wlookup, netEnergyKWh,
      initialEnergyOffset] at hv hw
    rw [← hv, ← hw, he]
  | acVoltage ph =>
    cases ph <;> simp [refacWrites, wlookup] at hw
  | acCurrent ph =>
    cases ph <;>
      (simp [origWrites, refacWrites, wlookup] at hv hw;
       rw [← hv, ← hw]) <;>
      simp [h1, h2, h3]
  | acPhasePower ph =>
    cases ph <;>
      (simp [origWrites, refacWrites, wlookup] at hv hw;
       rw [← hv, ← hw]) <;>
      simp [h1, h2, h3]
  | acPhaseEnergy ph =>
    cases ph <;>
      (simp [origWrites, refacWrites, wlookup, netEnergyKWh,
         initialEnergyOffset] at hv hw;
       rw [← hv, ← hw]) <;>
      simp [he]
  | updateIndex =>
    simp [origWrites, refacWrites, wlookup] at hv hw
    rw [← hv, ← hw, origNextIndex_nat n hn, refacNextIndex_nat n hn]
  | connected =>
    simp [origWrites, wlookup] at hv
  | deviceInstance =>
    simp [origWrites, wlookup] at hv
  | productId =>
    simp [origWrites, wlookup] at hv
  | position =>
    simp [origWrites, wlookup] at hv

/-- C7 witness: concrete instantiation at the freshly constructed state
of each variant and index 0. -/
theorem c7_witness :
    wlookup (origWrites origInit ((0 : ℕ) : ℚ)) DPath.acPower =
      some ((pyRoundInt origInit.pow_ges : ℤ) : ℚ) ∧
    wlookup (refacWrites initStore ((0 : ℕ) : ℚ)) DPath.acPower =
      some (pyRound1 initStore.pow_ges) :=
  ⟨(c7_variant_comparison initStore origInit 0 rfl rfl rfl rfl rfl
      (by norm_num)).2.1,
   (c7_variant_comparison initStore origInit 0 rfl rfl rfl rfl rfl
      (by norm_num)).2.2⟩

/-- C9: in the lock-level interleaving model, every snapshot the reader
ever observes carries a phase-power triple that was written together as
one atomic unit — it is either the initial triple or the argument triple
of a single `update_phase_powers` call, never a mix of two calls.  This
holds for every interleaving reachable from the initial configuration. -/
theorem c9_snapshot_atomicity (ini : PhaseTriple) (allJobs : List PhaseTriple)
    (pend : Nat) (cf : LockConfig)
    (h : Relation.ReflTransGen StoreStep
      ⟨ini.1, ini.2.1, ini.2.2, .free, allJobs, 0, pend, []⟩ cf) :
    ∀ s ∈ cf.snaps, s = ini ∨ s ∈ allJobs := by
  have hinv : LockInv ini allJobs cf := by
    induction h with
    | refl =>
      refine ⟨by simp, fun j hj => hj, ?_, fun _ => Or.inl rfl⟩
      intro how
      simp at how
    | tail hsteps hstep ih => exact lockInv_preserved ini allJobs hstep ih
  exact hinv.1

/-- C9 witness: a concrete interleaving — one full
`update_phase_powers (1, 2, 3)` critical section followed by one
snapshot — in which the observed triple `(1, 2, 3)` is whole. -/
theorem c9_witness :
    ((1 : ℚ), (2 : ℚ), (3 : ℚ)) = ((0 : ℚ), (0 : ℚ), (0 : ℚ)) ∨
      ((1 : ℚ), (2 : ℚ), (3 : ℚ)) ∈ [((1 : ℚ), (2 : ℚ), (3 : ℚ))] := by
  have hchain : Relation.ReflTransGen StoreStep
      ⟨0, 0, 0, .free, [(1, 2, 3)], 0, 1, []⟩
      ⟨1, 2, 3, .free, [], 0, 0, [(1, 2, 3)]⟩ := by
    refine Relation.ReflTransGen.head
      (StoreStep.acquire 0 0 0 (1, 2, 3) [] 0 1 []) ?_
    refine Relation.ReflTransGen.head
      (StoreStep.write1 0 0 0 (1, 2, 3) [] 1 []) ?_
    refine Relation.ReflTransGen.head
      (StoreStep.write2 1 0 0 (1, 2, 3) [] 1 []) ?_
    refine Relation.ReflTransGen.head
      (StoreStep.write3 1 2 0 (1, 2, 3) [] 1 []) ?_
    refine Relation.ReflTransGen.head
      (StoreStep.release 1 2 3 (1, 2, 3) [] 1 []) ?_
    exact Relation.ReflTransGen.single (StoreStep.snapshot 1 2 3 [] 0 0 [])
  exact c9_snapshot_atomicity (0, 0, 0) [(1, 2, 3)] 1
    ⟨1, 2, 3, .free, [], 0, 0, [(1, 2, 3)]⟩ hchain (1, 2, 3) (by simp)

/-- The `/Connected` sink value survives every operation: ticks only
write the `refacWrites` paths, which do not include `/Connected`. -/
theorem connected_stays_one (ops : List SysOp) :
    ∀ s : MQTTDataStore × (DPath → ℚ), s.2 DPath.connected = 1 →
      ((ops.foldl applyOp s).2) DPath.connected = 1 := by
  induction ops with
  | nil => intro s h; simpa using h
  | cons op rest ih =>
    intro s h
    rw [List.foldl_cons]
    apply ih
    cases op with
    | tick fail =>
      show (dbusUpdate fail s.2 s.1).1 DPath.connected = 1
      unfold dbusUpdate
      rw [runWrites_preserves fail s.2 _ DPath.connected
        (by rw [refacWrites_paths]; decide)]
      exact h
    | setConn b => exact h
    | msg t p => exact h

/-- C10: `/Connected` is set to the constant 1 at service construction
and no later operation ever writes it — neither publish tick variant has
it among its written paths, and `set_connected` changes only the store's
internal flag — so the published `/Connected` value stays 1 regardless
of the upstream connection state. -/
theorem c10_connected_path_constant :
    setupSink DPath.connected = 1 ∧
    (∀ ops : List SysOp,
      ((ops.foldl applyOp (initStore, setupSink)).2) DPath.connected = 1) ∧
    (∀ (d : MQTTDataStore) (oldIdx : ℚ),
      DPath.connected ∉ (refacWrites d oldIdx).map Prod.fst) ∧
    (∀ (g : OrigGlobals) (oldIdx : ℚ),
      DPath.connected ∉ (origWrites g oldIdx).map Prod.fst) ∧
    (∀ (st : MQTTDataStore) (b : Bool),
      setConnected st b = { st with connected := b }) := by
  refine ⟨rfl, ?_, ?_, ?_, fun st b => rfl⟩
  · intro ops
    exact connected_stays_one ops (initStore, setupSink) rfl
  · intro d oldIdx
    rw [refacWrites_paths]
    decide
  · intro g oldIdx
    rw [origWrites_paths]
    decide

/-! ### Sanity checks of the embedding on concrete values -/

example : pyFloat "1".data = some 1 := by
  simp [pyFloat, parseFloatChars, trimChars, parseUnsignedChars, pySpan, isPySpace,
    digitsToNat]

example : pyFloat "x".data = none := by
  simp [pyFloat, parseFloatChars, trimChars, parseUnsignedChars, pySpan, isPySpace]

example : pyFloat " 2.5 ".data = some (5 / 2) := by
  simp [pyFloat, parseFloatChars, trimChars, parseUnsignedChars, pySpan, isPySpace,
    digitsToNat]
  norm_num

example : pyFloat "-3.25".data = some (-13 / 4) := by
  simp [pyFloat, parseFloatChars, trimChars, parseUnsignedChars, pySpan, isPySpace,
    digitsToNat]
  norm_num

example : pyFloat "1e2".data = some 100 := by
  simp [pyFloat, parseFloatChars, trimChars, parseUnsignedChars, pySpan, isPySpace,
    digitsToNat, parseExpPart, parseExpDigits, pow10]
  norm_num

example : pyFloat "1.5e-1".data = some (3 / 20) := by
  simp [pyFloat, parseFloatChars, trimChars, parseUnsignedChars, pySpan, isPySpace,
    digitsToNat, parseExpPart, parseExpDigits, pow10]
  norm_num

example : pyFloat "".data = none := by
  simp [pyFloat, parseFloatChars, trimChars, parseUnsignedChars, pySpan, isPySpace]

example : pyFloat ".".data = none := by
  simp [pyFloat, parseFloatChars, trimChars, parseUnsignedChars, pySpan, isPySpace]

example : pyFloat "1.".data = some 1 := by
  simp [pyFloat, parseFloatChars, trimChars, parseUnsignedChars, pySpan, isPySpace,
    digitsToNat]

example : pyFloat "1e".data = none := by
  simp [pyFloat, parseFloatChars, trimChars, parseUnsignedChars, pySpan, isPySpace,
    parseExpPart, parseExpDigits]

example : pyFloat "1.2.3".data = none := by
  simp [pyFloat, parseFloatChars, trimChars, parseUnsignedChars, pySpan, isPySpace]

example : splitOnComma "1,x,2".data = ["1".data, "x".data, "2".data] := by
  simp [splitOnComma]

example : splitOnComma "".data = [[]] := by simp [splitOnComma]

example : (splitOnComma "1,2,3,".data).length = 4 := by simp [splitOnComma]

example :
    onMessage initStore "ehzmeter/pvpwrl123" "1,2,3" =
      { initStore with pow_l1 := 1, pow_l2 := 2, pow_l3 := 3 } := by
  simp [onMessage, onMessageFull, onMessageBody, updatePhasePowers, splitOnComma,
    pyFloat, parseFloatChars, trimChars, parseUnsignedChars, pySpan, isPySpace,
    digitsToNat]

example :
    onMessage initStore "ehzmeter/pvpwrl123" "1,x,2" =
      { initStore with pow_l1 := 1 } := by
  simp [onMessage, onMessageFull, onMessageBody, updatePhasePowers, splitOnComma,
    pyFloat, parseFloatChars, trimChars, parseUnsignedChars, pySpan, isPySpace,
    digitsToNat]

example : onMessage initStore "ehzmeter/pvpwrl123" "1,2" = initStore := by
  simp [onMessage, onMessageFull, onMessageBody, updatePhasePowers, splitOnComma,
    pyFloat, parseFloatChars, trimChars, parseUnsignedChars, pySpan, isPySpace]

example : onMessage initStore "ehzmeter/pvpower" "abc" = initStore := by
  simp [onMessage, onMessageFull, onMessageBody, pyFloat, parseFloatChars, trimChars,
    parseUnsignedChars, pySpan, isPySpace]

example : onMessage initStore "ehzmeter/pvpower" " 42.5 " =
    { initStore with pow_ges := 85 / 2 } := by
  simp [onMessage, onMessageFull, onMessageBody, pyFloat, parseFloatChars, trimChars,
    parseUnsignedChars, pySpan, isPySpace, digitsToNat]
  norm_num

example : (onMessageO origInit "ehzmeter/pvpower" "abc").2 = true := by
  simp [onMessageO, pyFloat, parseFloatChars, trimChars, parseUnsignedChars, pySpan,
    isPySpace]

example : (onMessageO origInit "ehzmeter/pvpower" "7").2 = false := by
  simp [onMessageO, pyFloat, parseFloatChars, trimChars, parseUnsignedChars, pySpan,
    isPySpace, digitsToNat]

example : (onMessageO origInit "ehzmeter/pvpwrl123" "1,2").2 = true := by
  simp [onMessageO, splitOnComma, pyFloat, parseFloatChars, trimChars,
    parseUnsignedChars, pySpan, isPySpace, digitsToNat]

example : roundHalfEven (5 / 2) = 2 := by norm_num [roundHalfEven]

example : roundHalfEven (7 / 2) = 4 := by norm_num [roundHalfEven]

example : roundHalfEven (-5 / 2) = -2 := by norm_num [roundHalfEven]

example : pyRound1 1 = 1 := by norm_num [pyRound1, roundHalfEven]

example : qmod 256 256 = 0 := by norm_num [qmod]
